import Mathlib

/-!
Verification development for the SQLite playground repository.

The Python modules `db_manager.py` and `helper.py` are shallowly embedded
below.  The SQLite engine itself is treated as a black box, exactly as the
specification prescribes: an `Engine` value supplies the effect of
`cursor.execute` on an abstract database state `σ`, together with the cursor
contents (`fetchall` rows of type `ρ` and `description` column names) and the
exception, if any, that the call raises.  Transaction semantics follow the
`sqlite3` connection model: the committed (on-disk) state is separate from the
in-memory state of the open connection; `commit` publishes the in-memory
state, `rollback` and `close`-without-commit discard it.

Python string methods are modelled over `List Char` (`String.data`) so that
every definition evaluates by kernel reduction on closed inputs.
-/

deriving instance DecidableEq for Except

namespace SQLitePlayground

/-! ### Python string primitives -/

/-- Python `str.strip()`: remove leading and trailing whitespace. -/
def pyStrip (cs : List Char) : List Char :=
  ((cs.dropWhile Char.isWhitespace).reverse.dropWhile Char.isWhitespace).reverse

/-- Python `str.strip()` at the `String` level. -/
def pyTrim (s : String) : String :=
  String.mk (pyStrip s.data)

/-- Splitter underlying Python `str.split(sep)`: cut at every character
satisfying `p`, keeping empty segments (so the result is always non-empty). -/
def splitOnPAux (p : Char → Bool) : List Char → List Char → List (List Char)
  | [], acc => [acc.reverse]
  | c :: cs, acc =>
    if p c then acc.reverse :: splitOnPAux p cs []
    else splitOnPAux p cs (c :: acc)

/-- Split a character list at every character satisfying `p`. -/
def splitOnP (p : Char → Bool) (cs : List Char) : List (List Char) :=
  splitOnPAux p cs []

/-- Python `str.upper()` (the source only feeds it ASCII SQL text). -/
def pyUpper (cs : List Char) : List Char :=
  cs.map Char.toUpper

/-- Python `str.lower()`. -/
def pyLower (cs : List Char) : List Char :=
  cs.map Char.toLower

/-- Python `str.startswith(pat)`: is `pat` an initial segment of `cs`? -/
def startsWithChars : List Char → List Char → Bool
  | [], _ => true
  | _ :: _, [] => false
  | p :: ps, c :: cs => p = c && startsWithChars ps cs

/-- Python `str.endswith(pat)`. -/
def endsWithChars (pat cs : List Char) : Bool :=
  startsWithChars pat.reverse cs.reverse

/-- Python `str.endswith` at the `String` level. -/
def pyEndsWith (s pat : String) : Bool :=
  endsWithChars pat.data s.data

/-- Python `str.replace(pat, rep)` for a one-character pattern — the only
shape the source uses (`replace('-', '_')` and `replace(';', '')`): every
occurrence is replaced. -/
def pyReplaceChar (pat : Char) (rep : List Char) (cs : List Char) : List Char :=
  (cs.map (fun c => if c = pat then rep else [c])).flatten

/-- Python `c in s` for a single character. -/
def containsChar (c : Char) (cs : List Char) : Bool :=
  cs.any (fun x => x = c)

/-- Python `str.split()` with no argument: split on whitespace runs,
discarding empty segments. -/
def pySplitWs (s : String) : List String :=
  ((splitOnP Char.isWhitespace s.data).filter (fun t => t ≠ [])).map String.mk

/-! ### The SQL execution engine model (`db_manager.py`) -/

/-- Python `sqlite3` exception taxonomy as it matters to `sql_executor`:
`operational` models `sqlite3.OperationalError` (malformed SQL, inability to
open a file); `integrity` models `sqlite3.IntegrityError` (constraint
violations) which in Python is a sibling of `OperationalError` below
`DatabaseError`, not a subclass of it, so it is not caught by an
`except sqlite3.OperationalError` clause; `other` models every remaining
exception, caught by the bare `except Exception` clause. -/
inductive EngineError
  | operational (msg : String)
  | integrity (msg : String)
  | other (msg : String)
  deriving DecidableEq

/-- The embedded relational engine, as a black box over an abstract database
state `σ` and row type `ρ`.  `exec st stmt` is the effect of
`cursor.execute(stmt)` on the connection state `st`: either the raised
exception, or the updated state together with the cursor's fetched rows
(`c.fetchall()`) and column names (`desc[0] for desc in c.description`). -/
structure Engine (σ ρ : Type) where
  exec : σ → String → Except EngineError (σ × List ρ × List String)

/-- Line 32 of `db_manager.py`: `raw_code.strip().split(';')`. -/
def splitStatements (raw_code : String) : List String :=
  (splitOnP (fun c => c = ';') (pyStrip raw_code.data)).map String.mk

/-- Line 44 of `db_manager.py`:
`statement.strip().upper().startswith(('SELECT', 'WITH'))`. -/
def isQueryShaped (statement : String) : Bool :=
  startsWithChars "SELECT".data (pyUpper (pyStrip statement.data))
    || startsWithChars "WITH".data (pyUpper (pyStrip statement.data))

/-- The trimmed non-blank statements of a batch, in order: exactly the
statements the executor loop submits to the engine. -/
def trimmedNonBlank (stmts : List String) : List String :=
  (stmts.filter (fun s => !(pyStrip s.data).isEmpty)).map pyTrim

/-- The `for statement in statements` loop of `sql_executor`
(lines 35-47 of `db_manager.py`), run on the in-memory connection state.
Returns the list of statements actually submitted to the engine (trimmed, in
order) together with either the raised exception or the final in-memory state
and, when the loop returned early at a query-shaped statement, that
statement's fetched rows and column names. -/
def runBatch (eng : Engine σ ρ) :
    List String → σ →
      List String × Except EngineError (σ × Option (List ρ × List String))
  | [], st => ([], .ok (st, none))
  | stmt :: rest, st =>
    if (pyStrip stmt.data).isEmpty then
      runBatch eng rest st
    else
      match eng.exec st (pyTrim stmt) with
      | .error e => ([pyTrim stmt], .error e)
      | .ok (st', rows, cols) =>
        if isQueryShaped stmt then
          ([pyTrim stmt], .ok (st', some (rows, cols)))
        else
          let r := runBatch eng rest st'
          (pyTrim stmt :: r.1, r.2)

/-- Connection lifecycle events emitted by `sql_executor` after the loop:
`conn.commit()`, `conn.rollback()` and the `finally: conn.close()`. -/
inductive ConnEvent
  | commit
  | rollback
  | close
  deriving DecidableEq

/-- What the two returned values of the Python function encode: either
`(rows, column_names)` for a query, or `([], message)` — a confirmation or
error string. -/
inductive ExecOutcome (ρ : Type)
  | rowsCols (rows : List ρ) (cols : List String)
  | message (s : String)
  deriving DecidableEq

/-- The observable result of one `sql_executor` call: the committed database
state once the connection is closed, the returned value, the statements that
were submitted to the engine, and the connection lifecycle events in order. -/
structure ExecReturn (σ ρ : Type) where
  db : σ
  outcome : ExecOutcome ρ
  executed : List String
  events : List ConnEvent
  deriving DecidableEq

/-- `sql_executor` of `db_manager.py`, lines 30-60, after a successful
`sqlite3.connect`.  `db` is the committed state found in the database file.
The early `return` on a query-shaped statement skips `conn.commit()`, so the
`finally: conn.close()` discards the in-memory state and the file keeps `db`;
the fall-through path commits; the two `except` clauses roll back — an
`sqlite3.OperationalError` yields the `"SQL Error: "` message, every other
exception (including `sqlite3.IntegrityError`) the `"An error occurred: "`
message. -/
def sql_executor (eng : Engine σ ρ) (raw_code : String) (db : σ) :
    ExecReturn σ ρ :=
  let r := runBatch eng (splitStatements raw_code) db
  match r.2 with
  | .ok (_, some (rows, cols)) =>
    { db := db, outcome := .rowsCols rows cols, executed := r.1,
      events := [.close] }
  | .ok (st, none) =>
    { db := st, outcome := .message "Executed non-SELECT statement.",
      executed := r.1, events := [.commit, .close] }
  | .error (.operational e) =>
    { db := db, outcome := .message ("SQL Error: " ++ e), executed := r.1,
      events := [.rollback, .close] }
  | .error (.integrity e) =>
    { db := db, outcome := .message ("An error occurred: " ++ e),
      executed := r.1, events := [.rollback, .close] }
  | .error (.other e) =>
    { db := db, outcome := .message ("An error occurred: " ++ e),
      executed := r.1, events := [.rollback, .close] }

/-- Line 28 of `db_manager.py`: `conn = sqlite3.connect(os.path.join('data',
db_name))` stands before the `try` block, so an exception raised by the
connect call (for instance `sqlite3.OperationalError: unable to open database
file` when `db_name` is empty, which makes the path the `data` directory
itself) is not caught by any handler of `sql_executor`.  Whether the connect
succeeds — and with which committed state — depends on the host file system,
so it is passed in as `connectResult`.  A top-level `.error` models the
exception escaping the function. -/
def sql_executor_conn (eng : Engine σ ρ)
    (connectResult : Except EngineError σ) (raw_code : String) :
    Except EngineError (ExecReturn σ ρ) :=
  match connectResult with
  | .error e => .error e
  | .ok db => .ok (sql_executor eng raw_code db)

/-- Sequential execution of the non-blank statements of a batch as plain
commands: the engine effect of the loop when no statement returns early. -/
def execCmds (eng : Engine σ ρ) : List String → σ → Except EngineError σ
  | [], st => .ok st
  | stmt :: rest, st =>
    if (pyStrip stmt.data).isEmpty then
      execCmds eng rest st
    else
      match eng.exec st (pyTrim stmt) with
      | .error e => .error e
      | .ok (st', _, _) => execCmds eng rest st'

/-- The single step the loop performs at its first query-shaped statement. -/
def queryStep (eng : Engine σ ρ) (st : σ) (q : String) :
    Except EngineError (σ × Option (List ρ × List String)) :=
  match eng.exec st (pyTrim q) with
  | .error e => .error e
  | .ok (st', rows, cols) => .ok (st', some (rows, cols))

/-- A concrete engine used to evaluate the model on closed inputs: the state
is the log of statements executed so far; the statement `"BOOM"` raises an
operational error, `"DUP"` an integrity error, and every other statement
succeeds with a fixed cursor content. -/
def logEngine : Engine (List String) Nat where
  exec := fun st stmt =>
    if stmt = "BOOM" then .error (.operational "near BOOM: syntax error")
    else if stmt = "DUP" then .error (.integrity "UNIQUE constraint failed: t.x")
    else .ok (st ++ [stmt], [1, 2, 3], ["x"])

/-! ### Store primitives shared by the `helper.py` model

Databases and tables are keyed association lists.  `setA` has SQLite's
replace semantics: an existing key's value is overwritten in place, a new key
is appended. -/

/-- Look a key up in an association list. -/
def lookupA (k : String) : List (String × α) → Option α
  | [] => none
  | (k', v) :: rest => if k' = k then some v else lookupA k rest

/-- Set a key in an association list: replace in place, or append. -/
def setA (k : String) (v : α) : List (String × α) → List (String × α)
  | [] => [(k, v)]
  | (k', v') :: rest =>
    if k' = k then (k, v) :: rest else (k', v') :: setA k v rest

/-- Python `os.path.splitext(name)[0]`: cut at the last dot, except when every
character before that dot is itself a dot (then there is no extension). -/
def splitextBase (name : String) : String :=
  let cs := name.data
  match (cs.enum.filter (fun ic => ic.2 = '.')).getLast? with
  | none => name
  | some (i, _) =>
    if (cs.take i).all (fun c => c = '.') then name else String.mk (cs.take i)

/-- The hyphen-normalization pattern of `helper.py`
(`if '-' in name: name = name.replace('-', '_')`). -/
def normalizeName (s : String) : String :=
  if containsChar '-' s.data then String.mk (pyReplaceChar '-' ['_'] s.data)
  else s

/-! ### Ingestion pipeline (`process_uploaded_files`, `helper.py` 124-191) -/

/-- What the bytes of an uploaded file parse as: a spreadsheet workbook (an
ordered list of named sheets, each a data frame of type `φ`), delimited text
(one data frame), or anything else (`blob`, e.g. a prebuilt database file). -/
inductive FileContent (φ : Type)
  | workbook (sheets : List (String × φ))
  | delimited (frame : φ)
  | blob
  deriving DecidableEq

/-- An uploaded file: a name (carrying the extension the pipeline dispatches
on) and its content. -/
structure UploadedFile (φ : Type) where
  name : String
  content : FileContent φ
  deriving DecidableEq

/-- `pd.ExcelFile(uploaded_file)`: succeeds on workbook content, raises
otherwise (the raise is caught by the per-file handler). -/
def pd_ExcelFile : FileContent φ → Except String (List (String × φ))
  | .workbook sheets => .ok sheets
  | _ => .error "not a spreadsheet workbook"

/-- `pd.read_excel(xls, sheet_name=...)`: look the named worksheet up in the
parsed workbook; raises when no sheet of that name exists. -/
def pd_read_excel_sheet (sheets : List (String × φ)) (sheet_name : String) :
    Except String φ :=
  match lookupA sheet_name sheets with
  | some df => .ok df
  | none => .error ("Worksheet named " ++ sheet_name ++ " not found")

/-- `pd.read_csv(uploaded_file)`: succeeds on delimited-text content. -/
def pd_read_csv : FileContent φ → Except String φ
  | .delimited df => .ok df
  | _ => .error "could not parse file as delimited text"

/-- `pd.read_excel(uploaded_file)` with no sheet argument: the first
worksheet of a workbook. -/
def pd_read_excel_first : FileContent φ → Except String φ
  | .workbook ((_, df) :: _) => .ok df
  | _ => .error "no parsable worksheet"

/-- `save_dataframe_to_sqlite` (`helper.py` 99-121): connect to
`data/{db_name}.sqlite` (creating an empty database when absent) and write
the frame with `if_exists="replace"` — the table is overwritten, other tables
are kept. -/
def save_dataframe_to_sqlite (df : φ) (db_name table_name : String)
    (store : List (String × List (String × φ))) :
    List (String × List (String × φ)) :=
  setA db_name (setA table_name df ((lookupA db_name store).getD [])) store

/-- Observable state of one `process_uploaded_files` call: the database
store, the raw files copied into the data directory (the `.sqlite` branch),
the table writes performed in order (database, table, frame), and the
per-file error messages reported via `st.error`. -/
structure IngestState (φ : Type) where
  store : List (String × List (String × φ))
  copied : List String
  writes : List (String × String × φ)
  errors : List String
  deriving DecidableEq

/-- The `for sheet_name in xls.sheet_names` loop (`helper.py` 149-153).  The
loop variable `sheet_name` is reassigned to its hyphen-normalized form
*before* `pd.read_excel(xls, sheet_name=sheet_name)` is called, so the
worksheet lookup itself uses the normalized name; the exception a failed
lookup raises is caught by the per-file handler, abandoning the remaining
sheets of this file. -/
def processSheets (db_name : String) (sheets : List (String × φ)) :
    List String → IngestState φ → IngestState φ
  | [], st => st
  | sheet :: rest, st =>
    let sheet_name := normalizeName sheet
    match pd_read_excel_sheet sheets sheet_name with
    | .error e => { st with errors := st.errors ++ [e] }
    | .ok df =>
      processSheets db_name sheets rest
        { st with
            store := save_dataframe_to_sqlite df db_name sheet_name st.store,
            writes := st.writes ++ [(db_name, sheet_name, df)] }

/-- One iteration of the merge-mode loop (`helper.py` 144-166): dispatch on
the file extension; workbooks expand into one table per sheet, delimited text
becomes one table named after the file, `.sqlite` files are copied verbatim,
anything else is ignored. -/
def processMergeFile (db_name : String) (st : IngestState φ)
    (f : UploadedFile φ) : IngestState φ :=
  if pyEndsWith f.name ".xls" || pyEndsWith f.name ".xlsx" then
    match pd_ExcelFile f.content with
    | .error e => { st with errors := st.errors ++ [e] }
    | .ok sheets => processSheets db_name sheets (sheets.map Prod.fst) st
  else if pyEndsWith f.name ".csv" then
    match pd_read_csv f.content with
    | .error e => { st with errors := st.errors ++ [e] }
    | .ok df =>
      let table_name := normalizeName (splitextBase f.name)
      { st with
          store := save_dataframe_to_sqlite df db_name table_name st.store,
          writes := st.writes ++ [(db_name, table_name, df)] }
  else if pyEndsWith f.name ".sqlite" then
    { st with copied := st.copied ++ [f.name] }
  else st

/-- The frame read in separate mode (`helper.py` 180-184): `pd.read_csv`
unless the name says spreadsheet, in which case `pd.read_excel` with its
first-sheet default. -/
def readSeparate (f : UploadedFile φ) : Except String φ :=
  if !(pyEndsWith f.name ".xls" || pyEndsWith f.name ".xlsx") then
    pd_read_csv f.content
  else pd_read_excel_first f.content

/-- One iteration of the separate-mode loop (`helper.py` 170-191): `.sqlite`
files are copied verbatim; every other file becomes its own database named
after the file (normalized, extension removed) holding the single table
`"table_name"` — a fixed placeholder string. -/
def processSeparateFile (st : IngestState φ) (f : UploadedFile φ) :
    IngestState φ :=
  if pyEndsWith f.name ".sqlite" then
    { st with copied := st.copied ++ [f.name] }
  else
    let db_name := normalizeName (splitextBase f.name)
    match readSeparate f with
    | .error e => { st with errors := st.errors ++ [e] }
    | .ok df =>
      { st with
          store := save_dataframe_to_sqlite df db_name "table_name" st.store,
          writes := st.writes ++ [(db_name, "table_name", df)] }

/-- `process_uploaded_files` (`helper.py` 124-191).  In merge mode the target
database name is derived from the first file (`uploaded_files[0]` raises
`IndexError` on an empty list, modelled by `none`); every file is then folded
through the per-file step of the selected mode. -/
def process_uploaded_files (uploaded_files : List (UploadedFile φ))
    (same_db : Bool) (store : List (String × List (String × φ))) :
    Option (IngestState φ) :=
  let init : IngestState φ := ⟨store, [], [], []⟩
  if same_db then
    match uploaded_files with
    | [] => none
    | f0 :: _ =>
      let db_name := normalizeName (splitextBase f0.name)
      some (uploaded_files.foldl (processMergeFile db_name) init)
  else
    some (uploaded_files.foldl processSeparateFile init)

/-! ### Database directory manager (`helper.py` 14-25 and 194-215) -/

/-- `list_databases` (`helper.py` 14-25): from the directory listing, keep
the files ending in `.sqlite` and take `f.split(".")[0]` — the part of each
name before its *first* dot. -/
def list_databases (dirListing : List String) : List String :=
  (dirListing.filter (fun f => pyEndsWith f ".sqlite")).map
    (fun f => String.mk ((splitOnP (fun c => c = '.') f.data).headD []))

/-- `handle_create_database_query` (`helper.py` 194-215) against a file
system modelled as path-to-content pairs.  The third whitespace-separated
token is the database name; a trailing semicolon makes the code remove every
semicolon from the token.  `open(db_path, "w").close()` creates an empty file
only when the path does not exist.  Fewer than three tokens raise
`IndexError` (modelled by `none`). -/
def handle_create_database_query (query : String) (databases_dir : String)
    (fs : List (String × String)) : Option (Bool × List (String × String)) :=
  if startsWithChars "create database".data (pyLower query.data) then
    match (pySplitWs query)[2]? with
    | none => none
    | some tok =>
      let db_name :=
        if tok.data.getLast? = some ';' then
          String.mk (pyReplaceChar ';' [] tok.data)
        else tok
      let db_path := databases_dir ++ "/" ++ db_name ++ ".sqlite"
      if (lookupA db_path fs).isSome then some (false, fs)
      else some (true, fs ++ [(db_path, "")])
  else some (false, fs)

/-! ### Schema inspector (`helper.py` 28-78) -/

/-- A database file's catalog: table names with their column names in
declared order. -/
abbrev DBFile := List (String × List String)

/-- `sqlite3.connect(path)`: open the database at `path` — silently creating
an empty database file when none exists, as SQLite does. -/
def sqlite_connect (path : String) (fs : List (String × DBFile)) :
    DBFile × List (String × DBFile) :=
  match lookupA path fs with
  | some db => (db, fs)
  | none => ([], fs ++ [(path, [])])

/-- `get_db_schema` (`helper.py` 28-58): connect to `db_path`, read the table
names from `sqlite_master`, then `PRAGMA table_info` per table for the column
names in declared order.  Returns the schema together with the file system
after the call (the connect may have created the file). -/
def get_db_schema (db_path : String) (fs : List (String × DBFile)) :
    DBFile × List (String × DBFile) :=
  let c := sqlite_connect db_path fs
  ((c.1.map Prod.fst).map (fun t => (t, (lookupA t c.1).getD [])), c.2)

/-- `list_database_schema` (`helper.py` 61-78): check
`os.path.exists("data/{name}.sqlite")` first; only when the file exists is
`get_db_schema` consulted, otherwise the empty mapping is returned with the
file system untouched. -/
def list_database_schema (selected_db_name : String)
    (fs : List (String × DBFile)) :
    List (String × DBFile) × List (String × DBFile) :=
  let db_path := "data/" ++ selected_db_name ++ ".sqlite"
  if (lookupA db_path fs).isSome then
    let r := get_db_schema db_path fs
    ([(selected_db_name, r.1)], r.2)
  else ([], fs)

/-! ### Executor lemmas -/

/-- A blank statement is never query-shaped. -/
theorem isQueryShaped_blank (s : String)
    (h : (pyStrip s.data).isEmpty = true) : isQueryShaped s = false := by
  rw [List.isEmpty_iff] at h
  simp only [isQueryShaped, h]
  decide

/-- A query-shaped statement is not blank. -/
theorem not_blank_of_isQueryShaped (s : String)
    (hq : isQueryShaped s = true) : (pyStrip s.data).isEmpty = false := by
  cases hb : (pyStrip s.data).isEmpty with
  | false => rfl
  | true => rw [isQueryShaped_blank s hb] at hq; cases hq

theorem trimmedNonBlank_cons_blank (s : String) (l : List String)
    (h : (pyStrip s.data).isEmpty = true) :
    trimmedNonBlank (s :: l) = trimmedNonBlank l := by
  simp [trimmedNonBlank, h]

theorem trimmedNonBlank_cons (s : String) (l : List String)
    (h : (pyStrip s.data).isEmpty = false) :
    trimmedNonBlank (s :: l) = pyTrim s :: trimmedNonBlank l := by
  simp [trimmedNonBlank, h]

/-- Running a batch whose first query-shaped statement is `q`: the loop
executes the non-blank commands before `q`, then `q`, and never looks at the
statements after `q`. -/
theorem runBatch_first_query (eng : Engine σ ρ) (pre : List String)
    (q : String) (post : List String) (db st : σ)
    (hpre : ∀ s ∈ pre, isQueryShaped s = false)
    (hq : isQueryShaped q = true)
    (hok : execCmds eng pre db = .ok st) :
    runBatch eng (pre ++ q :: post) db =
      (trimmedNonBlank pre ++ [pyTrim q], queryStep eng st q) := by
  induction pre generalizing db with
  | nil =>
    simp only [execCmds, Except.ok.injEq] at hok
    subst hok
    have hb : (pyStrip q.data).isEmpty = false := not_blank_of_isQueryShaped q hq
    simp only [List.nil_append, runBatch, hb, Bool.false_eq_true, if_false]
    cases hx : eng.exec db (pyTrim q) with
    | error e => simp [queryStep, hx, trimmedNonBlank]
    | ok v =>
      obtain ⟨st', rows, cols⟩ := v
      simp [queryStep, hx, hq, trimmedNonBlank]
  | cons s pre ih =>
    have hs : isQueryShaped s = false := hpre s (List.mem_cons_self s pre)
    have hpre' : ∀ x ∈ pre, isQueryShaped x = false :=
      fun x hx => hpre x (List.mem_cons_of_mem s hx)
    cases hb : (pyStrip s.data).isEmpty with
    | true =>
      simp only [execCmds, hb, if_true] at hok
      rw [List.cons_append, trimmedNonBlank_cons_blank s pre hb]
      simpa [runBatch, hb] using ih db hpre' hok
    | false =>
      simp only [execCmds, hb, Bool.false_eq_true, if_false] at hok
      cases hx : eng.exec db (pyTrim s) with
      | error e => rw [hx] at hok; cases hok
      | ok v =>
        obtain ⟨st1, rows, cols⟩ := v
        rw [hx] at hok
        rw [List.cons_append, trimmedNonBlank_cons s pre hb]
        simp [runBatch, hb, hx, hs, ih st1 hpre' hok]

/-- Running a batch with no query-shaped statement is command execution: when
it succeeds the loop falls through with the final in-memory state. -/
theorem runBatch_no_query (eng : Engine σ ρ) (stmts : List String) (db st : σ)
    (h : ∀ s ∈ stmts, isQueryShaped s = false)
    (hok : execCmds eng stmts db = .ok st) :
    runBatch eng stmts db = (trimmedNonBlank stmts, .ok (st, none)) := by
  induction stmts generalizing db with
  | nil =>
    simp only [execCmds, Except.ok.injEq] at hok
    subst hok
    simp [runBatch, trimmedNonBlank]
  | cons s rest ih =>
    have hs : isQueryShaped s = false := h s (List.mem_cons_self s rest)
    have h' : ∀ x ∈ rest, isQueryShaped x = false :=
      fun x hx => h x (List.mem_cons_of_mem s hx)
    cases hb : (pyStrip s.data).isEmpty with
    | true =>
      simp only [execCmds, hb, if_true] at hok
      rw [trimmedNonBlank_cons_blank s rest hb]
      simpa [runBatch, hb] using ih db h' hok
    | false =>
      simp only [execCmds, hb, Bool.false_eq_true, if_false] at hok
      cases hx : eng.exec db (pyTrim s) with
      | error e => rw [hx] at hok; cases hok
      | ok v =>
        obtain ⟨st1, rows, cols⟩ := v
        rw [hx] at hok
        rw [trimmedNonBlank_cons s rest hb]
        simp [runBatch, hb, hx, hs, ih st1 h' hok]

/-! ### Claims about `sql_executor` -/

/-- C1: for every raw batch whose semicolon-split statements contain a first
query-shaped statement `q` (every earlier statement is not query-shaped), a
run in which the statements up to `q` execute without error submits to the
engine, in order, exactly the non-blank statements up to and including `q`,
returns `q`'s fetched rows together with its column names as the final
result, and executes none of the statements after `q`. -/
theorem sql_executor_first_query_short_circuits
    (eng : Engine σ ρ) (db : σ) (raw_code : String) (pre post : List String)
    (q : String) (st st' : σ) (rows : List ρ) (cols : List String)
    (hsplit : splitStatements raw_code = pre ++ q :: post)
    (hpre : ∀ s ∈ pre, isQueryShaped s = false)
    (hq : isQueryShaped q = true)
    (hcmds : execCmds eng pre db = .ok st)
    (hexec : eng.exec st (pyTrim q) = .ok (st', rows, cols)) :
    sql_executor eng raw_code db =
      { db := db, outcome := .rowsCols rows cols,
        executed := trimmedNonBlank pre ++ [pyTrim q],
        events := [.close] } := by
  have h := runBatch_first_query eng pre q post db st hpre hq hcmds
  rw [← hsplit] at h
  simp [sql_executor, h, queryStep, hexec]

/-- Witness for the C1 theorem at a concrete three-statement batch. -/
theorem sql_executor_first_query_short_circuits_witness :
    sql_executor logEngine "INSERT;SELECT 1;DROP" [] =
      { db := [], outcome := .rowsCols [1, 2, 3] ["x"],
        executed := ["INSERT", "SELECT 1"], events := [.close] } := by
  have h := sql_executor_first_query_short_circuits logEngine []
    "INSERT;SELECT 1;DROP" ["INSERT"] ["DROP"] "SELECT 1"
    ["INSERT"] ["INSERT", "SELECT 1"] [1, 2, 3] ["x"]
    (by decide) (by decide) (by decide) (by decide) (by decide)
  rw [h]
  decide

/-- C10: when command statements precede the first query-shaped statement and
no error occurs, the early return skips `conn.commit()`, so closing the
connection discards the commands' effects: the committed database is exactly
the one the call started from. -/
theorem sql_executor_query_path_discards_commands
    (eng : Engine σ ρ) (db : σ) (raw_code : String) (pre post : List String)
    (q : String) (st st' : σ) (rows : List ρ) (cols : List String)
    (hsplit : splitStatements raw_code = pre ++ q :: post)
    (hne : trimmedNonBlank pre ≠ [])
    (hpre : ∀ s ∈ pre, isQueryShaped s = false)
    (hq : isQueryShaped q = true)
    (hcmds : execCmds eng pre db = .ok st)
    (hexec : eng.exec st (pyTrim q) = .ok (st', rows, cols)) :
    (sql_executor eng raw_code db).db = db ∧
      ConnEvent.commit ∉ (sql_executor eng raw_code db).events := by
  have h := runBatch_first_query eng pre q post db st hpre hq hcmds
  rw [← hsplit] at h
  simp [sql_executor, h, queryStep, hexec]

/-- Witness for the C10 theorem: the logged `INSERT` is not committed. -/
theorem sql_executor_query_path_discards_commands_witness :
    (sql_executor logEngine "INSERT;SELECT 1;DROP" []).db = ([] : List String) ∧
      ConnEvent.commit ∉ (sql_executor logEngine "INSERT;SELECT 1;DROP" []).events :=
  sql_executor_query_path_discards_commands logEngine [] "INSERT;SELECT 1;DROP"
    ["INSERT"] ["DROP"] "SELECT 1" ["INSERT"] ["INSERT", "SELECT 1"]
    [1, 2, 3] ["x"]
    (by decide) (by decide) (by decide) (by decide) (by decide) (by decide)

/-- C2: a batch in which some statement fails is rolled back before the
connection closes — the committed database is unchanged, so no earlier
statement's effect persists — and a batch with no query-shaped statement that
executes without error is committed, the final committed state being the one
reached after every command. -/
theorem sql_executor_rollback_and_commit
    (eng : Engine σ ρ) (raw_code : String) (db : σ) :
    (∀ e, (runBatch eng (splitStatements raw_code) db).2 = .error e →
        (sql_executor eng raw_code db).db = db ∧
          ConnEvent.rollback ∈ (sql_executor eng raw_code db).events) ∧
    ((∀ s ∈ splitStatements raw_code, isQueryShaped s = false) →
      ∀ st, execCmds eng (splitStatements raw_code) db = .ok st →
        sql_executor eng raw_code db =
          { db := st, outcome := .message "Executed non-SELECT statement.",
            executed := trimmedNonBlank (splitStatements raw_code),
            events := [.commit, .close] }) := by
  constructor
  · intro e he
    cases e <;> simp [sql_executor, he]
  · intro hnq st hok
    have h := runBatch_no_query eng (splitStatements raw_code) db st hnq hok
    simp [sql_executor, h]

/-- Witness for the C2 theorem: a two-command batch commits both effects; a
batch failing at its second statement leaves the committed state empty. -/
theorem sql_executor_rollback_and_commit_witness :
    sql_executor logEngine "A;B" [] =
      { db := ["A", "B"], outcome := .message "Executed non-SELECT statement.",
        executed := ["A", "B"], events := [.commit, .close] } ∧
    (sql_executor logEngine "A;BOOM;B" []).db = ([] : List String) := by
  constructor
  · have h := (sql_executor_rollback_and_commit logEngine "A;B" []).2
      (by decide) ["A", "B"] (by decide)
    rw [h]
    decide
  · exact ((sql_executor_rollback_and_commit logEngine "A;BOOM;B" []).1
      (.operational "near BOOM: syntax error") (by decide)).1

/-- C3 counterexample: a constraint violation raises
`sqlite3.IntegrityError`, which is not a subclass of
`sqlite3.OperationalError`, so it falls to the generic `except Exception`
branch: its message carries the generic prefix, not the SQL-level one the
claim asserts for every recognized engine execution error. -/
theorem integrity_error_gets_generic_message :
    (sql_executor logEngine "DUP" []).outcome =
      .message "An error occurred: UNIQUE constraint failed: t.x" ∧
    startsWithChars "SQL Error:".data
      "An error occurred: UNIQUE constraint failed: t.x".data = false := by
  decide

/-- C3 amended: every engine failure rolls back the transaction and returns
the engine's error text, but only `sqlite3.OperationalError` (malformed SQL)
receives the SQL-level prefix; constraint violations and all other exceptions
receive the distinct generic prefix. -/
theorem sql_executor_error_message_forms
    (eng : Engine σ ρ) (raw_code : String) (db : σ) :
    (∀ e, (runBatch eng (splitStatements raw_code) db).2 =
            .error (.operational e) →
        sql_executor eng raw_code db =
          { db := db, outcome := .message ("SQL Error: " ++ e),
            executed := (runBatch eng (splitStatements raw_code) db).1,
            events := [.rollback, .close] }) ∧
    (∀ e, (runBatch eng (splitStatements raw_code) db).2 =
            .error (.integrity e) →
        sql_executor eng raw_code db =
          { db := db, outcome := .message ("An error occurred: " ++ e),
            executed := (runBatch eng (splitStatements raw_code) db).1,
            events := [.rollback, .close] }) ∧
    (∀ e, (runBatch eng (splitStatements raw_code) db).2 =
            .error (.other e) →
        sql_executor eng raw_code db =
          { db := db, outcome := .message ("An error occurred: " ++ e),
            executed := (runBatch eng (splitStatements raw_code) db).1,
            events := [.rollback, .close] }) ∧
    ("SQL Error: " : String) ≠ "An error occurred: " := by
  refine ⟨fun e he => ?_, fun e he => ?_, fun e he => ?_, by decide⟩ <;>
    simp [sql_executor, he]

/-- Witness for the C3 amended theorem: a malformed statement and a
constraint violation, with their two distinct prefixes. -/
theorem sql_executor_error_message_forms_witness :
    sql_executor logEngine "BOOM" [] =
      { db := [], outcome := .message "SQL Error: near BOOM: syntax error",
        executed := ["BOOM"], events := [.rollback, .close] } ∧
    sql_executor logEngine "DUP" [] =
      { db := [],
        outcome := .message "An error occurred: UNIQUE constraint failed: t.x",
        executed := ["DUP"], events := [.rollback, .close] } := by
  constructor
  · have h := (sql_executor_error_message_forms logEngine "BOOM" []).1
      "near BOOM: syntax error" (by decide)
    rw [h]
    decide
  · have h := (sql_executor_error_message_forms logEngine "DUP" []).2.1
      "UNIQUE constraint failed: t.x" (by decide)
    rw [h]
    decide

/-- C4 counterexample: `sqlite3.connect` stands before the `try` block, so
when it fails (for instance `db_name = ""`, which makes the path the `data`
directory itself) the exception escapes `sql_executor` instead of being
returned as a message result: the function does raise for some inputs. -/
theorem sql_executor_conn_failure_raises :
    sql_executor_conn logEngine
        (.error (.operational "unable to open database file")) "SELECT 1" =
      .error (.operational "unable to open database file") ∧
    (sql_executor_conn logEngine
        (.error (.operational "unable to open database file"))
        "SELECT 1").isOk = false := by
  decide

/-- C4 amended: once the connection is established, `sql_executor` never
raises — its result is always returned, every engine failure surfaces as a
message-carrying result — and the connection is closed as the last action on
every exit path. -/
theorem sql_executor_never_raises_after_connect
    (eng : Engine σ ρ) (raw_code : String) (db : σ) :
    sql_executor_conn eng (.ok db) raw_code =
        .ok (sql_executor eng raw_code db) ∧
    (sql_executor eng raw_code db).events.getLast? = some .close ∧
    (∀ e, (runBatch eng (splitStatements raw_code) db).2 = .error e →
        ∃ s, (sql_executor eng raw_code db).outcome = .message s) := by
  refine ⟨rfl, ?_, ?_⟩
  · cases h : (runBatch eng (splitStatements raw_code) db).2 with
    | error e => cases e <;> simp [sql_executor, h]
    | ok v =>
      obtain ⟨st, fetched⟩ := v
      cases fetched with
      | none => simp [sql_executor, h]
      | some rc =>
        obtain ⟨rows, cols⟩ := rc
        simp [sql_executor, h]
  · intro e he
    cases e <;> simp [sql_executor, he]

/-- Witness for the C4 amended theorem at a failing concrete batch. -/
theorem sql_executor_never_raises_after_connect_witness :
    sql_executor_conn logEngine (.ok ([] : List String)) "BOOM" =
      .ok (sql_executor logEngine "BOOM" []) ∧
    (sql_executor logEngine "BOOM" []).events.getLast? = some .close ∧
    (∃ s, (sql_executor logEngine "BOOM" []).outcome = .message s) := by
  obtain ⟨h1, h2, h3⟩ :=
    sql_executor_never_raises_after_connect logEngine "BOOM" []
  exact ⟨h1, h2, h3 (.operational "near BOOM: syntax error") (by decide)⟩

/-! ### Store lemmas -/

/-- Setting a key makes it found with the new value. -/
theorem lookupA_setA_self (k : String) (v : α) (l : List (String × α)) :
    lookupA k (setA k v l) = some v := by
  induction l with
  | nil => simp [setA, lookupA]
  | cons p rest ih =>
    obtain ⟨k', v'⟩ := p
    by_cases h : k' = k
    · simp [setA, h, lookupA]
    · simp [setA, h, lookupA, ih]

/-- Rebuilding a catalog from its table names and per-table lookups gives the
catalog back, provided table names are unique (SQLite guarantees this). -/
theorem schema_reconstruct (db : List (String × List String))
    (hnd : (db.map Prod.fst).Nodup) :
    (db.map Prod.fst).map (fun t => (t, (lookupA t db).getD [])) = db := by
  induction db with
  | nil => simp
  | cons p rest ih =>
    obtain ⟨k, v⟩ := p
    rw [List.map_cons, List.nodup_cons] at hnd
    obtain ⟨hk, hrest⟩ := hnd
    have hmap :
        (rest.map Prod.fst).map
            (fun t => (t, (lookupA t ((k, v) :: rest)).getD [])) =
          (rest.map Prod.fst).map (fun t => (t, (lookupA t rest).getD [])) := by
      apply List.map_congr_left
      intro t ht
      have hkt : k ≠ t := fun hkt => hk (hkt ▸ ht)
      simp [lookupA, hkt]
    simp only [List.map_cons, List.map_cons]
    rw [show lookupA k ((k, v) :: rest) = some v by simp [lookupA]]
    simp only [Option.getD_some]
    rw [hmap, ih hrest]

/-- The write trace of the separate-mode fold over non-database files: one
write per readable file, into the database named after the file, always under
the placeholder table name. -/
theorem processSeparate_writes (files : List (UploadedFile φ))
    (st : IngestState φ)
    (h : ∀ f ∈ files, pyEndsWith f.name ".sqlite" = false) :
    (files.foldl processSeparateFile st).writes =
      st.writes ++ files.filterMap (fun f =>
        match readSeparate f with
        | .ok df => some (normalizeName (splitextBase f.name), "table_name", df)
        | .error _ => none) := by
  induction files generalizing st with
  | nil => simp
  | cons f rest ih =>
    have hf := h f (List.mem_cons_self f rest)
    have h' : ∀ x ∈ rest, pyEndsWith x.name ".sqlite" = false :=
      fun x hx => h x (List.mem_cons_of_mem f hx)
    simp only [List.foldl_cons, List.filterMap_cons]
    cases hr : readSeparate f with
    | error e =>
      rw [ih _ h']
      simp [processSeparateFile, hf, hr]
    | ok df =>
      rw [ih _ h']
      simp [processSeparateFile, hf, hr]

/-! ### Claims about the ingestion pipeline and directory manager -/

/-- C5 evaluation at the failing input: in merge mode the sheet loop
reassigns its variable to the normalized name *before* calling
`pd.read_excel(xls, sheet_name=...)`, so a workbook sheet named `"my-sheet"`
is looked up as `"my_sheet"`, the lookup raises, and no table is written at
all; a hyphen-free sheet is written under its own name as intended. -/
theorem merge_mode_hyphen_sheet_not_written :
    process_uploaded_files
        [⟨"book.xlsx", .workbook [("my-sheet", (7 : Nat))]⟩] true [] =
      some ⟨[], [], [], ["Worksheet named my_sheet not found"]⟩ ∧
    process_uploaded_files
        [⟨"report.xlsx", .workbook [("sales", (7 : Nat))]⟩] true [] =
      some ⟨[("report", [("sales", 7)])], [], [("report", "sales", 7)], []⟩ := by
  decide

/-- C6: in separate mode every non-database file whose content is readable
becomes a write into the database named after the file (normalized, extension
removed) under the fixed placeholder table name `"table_name"`; a single such
file landing in a fresh database name yields a database with exactly that one
table. -/
theorem separate_mode_placeholder_table {φ : Type} :
    (∀ (files : List (UploadedFile φ))
        (store : List (String × List (String × φ))),
      (∀ f ∈ files, pyEndsWith f.name ".sqlite" = false) →
      (process_uploaded_files files false store).map IngestState.writes =
        some (files.filterMap (fun f =>
          match readSeparate f with
          | .ok df =>
            some (normalizeName (splitextBase f.name), "table_name", df)
          | .error _ => none))) ∧
    (∀ (f : UploadedFile φ) (df : φ)
        (store : List (String × List (String × φ))),
      pyEndsWith f.name ".sqlite" = false →
      readSeparate f = .ok df →
      lookupA (normalizeName (splitextBase f.name)) store = none →
      (process_uploaded_files [f] false store).map (fun st =>
          lookupA (normalizeName (splitextBase f.name)) st.store) =
        some (some [("table_name", df)])) := by
  constructor
  · intro files store h
    simp [process_uploaded_files, processSeparate_writes files _ h]
  · intro f df store hf hr hl
    simp [process_uploaded_files, processSeparateFile, hf, hr,
      save_dataframe_to_sqlite, hl, setA, lookupA_setA_self]

/-- Witness for the C6 theorem: one hyphenated delimited-text file. -/
theorem separate_mode_placeholder_table_witness :
    (process_uploaded_files
        [⟨"sales-data.csv", FileContent.delimited (5 : Nat)⟩] false []).map
        IngestState.writes = some [("sales_data", "table_name", 5)] ∧
    (process_uploaded_files
        [⟨"sales-data.csv", FileContent.delimited (5 : Nat)⟩] false []).map
        (fun st =>
          lookupA (normalizeName (splitextBase "sales-data.csv")) st.store) =
      some (some [("table_name", 5)]) := by
  constructor
  · have h := (separate_mode_placeholder_table (φ := Nat)).1
      [⟨"sales-data.csv", FileContent.delimited 5⟩] [] (by decide)
    rw [h]
    decide
  · exact (separate_mode_placeholder_table (φ := Nat)).2
      ⟨"sales-data.csv", FileContent.delimited 5⟩ 5 []
      (by decide) (by decide) (by decide)

/-- C7: a well-formed `create database` text creates an empty database file
and reports `true` exactly when the derived path is absent; whenever the path
already exists the call reports `false` and leaves the file system unchanged
— in particular a second identical call after a successful creation is a
no-op, and an existing file is never overwritten. -/
theorem handle_create_database_query_create_once
    (query databases_dir tok db_name db_path : String)
    (fs : List (String × String))
    (hq : startsWithChars "create database".data (pyLower query.data) = true)
    (htok : (pySplitWs query)[2]? = some tok)
    (hname : db_name = (if tok.data.getLast? = some ';' then
        String.mk (pyReplaceChar ';' [] tok.data) else tok))
    (hpath : db_path = databases_dir ++ "/" ++ db_name ++ ".sqlite") :
    (lookupA db_path fs = none →
      handle_create_database_query query databases_dir fs =
        some (true, fs ++ [(db_path, "")])) ∧
    (lookupA db_path fs ≠ none →
      handle_create_database_query query databases_dir fs =
        some (false, fs)) := by
  subst hname
  subst hpath
  constructor
  · intro h
    simp [handle_create_database_query, hq, htok, h]
  · intro h
    cases hL : lookupA (databases_dir ++ "/" ++
        (if tok.data.getLast? = some ';' then
          String.mk (pyReplaceChar ';' [] tok.data) else tok) ++ ".sqlite") fs with
    | none => exact absurd hL h
    | some c => simp [handle_create_database_query, hq, htok, hL]

/-- Witness for the C7 theorem: two successive calls with the same name. -/
theorem handle_create_database_query_create_once_witness :
    handle_create_database_query "create database foo;" "data" [] =
      some (true, [("data/foo.sqlite", "")]) ∧
    handle_create_database_query "create database foo;" "data"
        [("data/foo.sqlite", "")] = some (false, [("data/foo.sqlite", "")]) := by
  constructor
  · have h := (handle_create_database_query_create_once "create database foo;"
      "data" "foo;" "foo" "data/foo.sqlite" [] (by decide) (by decide)
      (by decide) (by decide)).1 (by decide)
    rw [h]
    decide
  · exact (handle_create_database_query_create_once "create database foo;"
      "data" "foo;" "foo" "data/foo.sqlite" [("data/foo.sqlite", "")]
      (by decide) (by decide) (by decide) (by decide)).2 (by decide)

/-- C8 evaluation at the failing input: `list_databases` keeps the part of
each `.sqlite` file name before its *first* dot, so a file whose stem itself
contains a dot loses more than the extension — contradicting the function's
own docstring (names without the `.sqlite` extension). -/
theorem list_databases_truncates_at_first_dot :
    list_databases ["my.backup.sqlite"] = ["my"] ∧
    ("my" : String) ≠ "my.backup" := by
  decide

/-- C9 counterexample: called on a path with no database file behind it,
`get_db_schema` does return the empty mapping, but its unconditional
`sqlite3.connect` *creates* the missing file — the file system after the call
differs from the empty one it started from. -/
theorem get_db_schema_creates_missing_file :
    (get_db_schema "data/missing.sqlite" []).1 = [] ∧
    (get_db_schema "data/missing.sqlite" []).2 =
      [("data/missing.sqlite", [])] ∧
    (get_db_schema "data/missing.sqlite" []).2 ≠ [] := by
  decide

/-- C9 amended: on a missing file `get_db_schema` returns the empty mapping
but creates an empty database file, while `list_database_schema` — which
pre-checks existence — returns the empty mapping with the file system
untouched; on an existing file the schema maps each table, in catalog order,
to its declared column sequence. -/
theorem schema_inspector_behaviour
    (path name : String) (fs : List (String × DBFile)) (db : DBFile) :
    (lookupA path fs = none →
      get_db_schema path fs = ([], fs ++ [(path, [])])) ∧
    (lookupA ("data/" ++ name ++ ".sqlite") fs = none →
      list_database_schema name fs = ([], fs)) ∧
    (lookupA path fs = some db → (db.map Prod.fst).Nodup →
      get_db_schema path fs = (db, fs)) := by
  refine ⟨?_, ?_, ?_⟩
  · intro h
    simp [get_db_schema, sqlite_connect, h]
  · intro h
    simp [list_database_schema, h]
  · intro h hnd
    simp only [get_db_schema, sqlite_connect, h]
    exact congrArg (fun x => (x, fs)) (schema_reconstruct db hnd)

/-- Witness for the C9 amended theorem at concrete file systems. -/
theorem schema_inspector_behaviour_witness :
    get_db_schema "data/x.sqlite" [] = ([], [("data/x.sqlite", [])]) ∧
    list_database_schema "x" [] = ([], []) ∧
    get_db_schema "data/t.sqlite" [("data/t.sqlite", [("t", ["a", "b"])])] =
      ([("t", ["a", "b"])], [("data/t.sqlite", [("t", ["a", "b"])])]) := by
  obtain ⟨h1, h2, h3⟩ := schema_inspector_behaviour "data/x.sqlite" "x"
    ([] : List (String × DBFile)) []
  refine ⟨h1 (by decide), h2 (by decide), ?_⟩
  exact (schema_inspector_behaviour "data/t.sqlite" "x"
    [("data/t.sqlite", [("t", ["a", "b"])])] [("t", ["a", "b"])]).2.2
    (by decide) (by decide)

end SQLitePlayground
